import Mathlib

/-!
Verification of the Book management microservice (`src/app.py`).

The service is a single-resource CRUD API over `Book` records.  We shallowly
embed the parts that carry the design: the payload validator
`validate_book_data`, the `Book` model, the database session (as an explicit
store state), and the request handlers (`BookList.post`,
`BookResource.get/put/delete`).  JSON payload values are modelled by `PyVal`,
dictionaries by association lists, and an uncaught Python exception inside a
handler's `try` block by the `Except` error channel (caught by the generic
`except` clause, which rolls the session back and answers 500).
-/

/-- A Python value as it can appear in a decoded JSON payload (plus `bool`
and `float`, which Python callers can also produce).  Floats are represented
exactly as a fraction `num / den`; `int()` truncates them toward zero. -/
inductive PyVal where
  | str (s : String)
  | int (n : Int)
  | bool (b : Bool)
  | float (num : Int) (den : Nat)
  | none
  deriving DecidableEq, Repr

/-- Python truthiness: `None`, `0`, `False`, `""` and `0.0` are falsy. -/
def truthy : PyVal → Bool
  | .str s => s ≠ ""
  | .int n => n ≠ 0
  | .bool b => b
  | .float num _ => num ≠ 0
  | .none => false

/-- Python `str.strip()`: drop leading and trailing whitespace. -/
def pyStrip (s : String) : String :=
  ⟨((s.data.dropWhile Char.isWhitespace).reverse.dropWhile Char.isWhitespace).reverse⟩

/-- The value of a nonempty string of decimal digits. -/
def digitsToNat (l : List Char) : Nat :=
  l.foldl (fun n c => 10 * n + (c.toNat - 48)) 0

/-- Parse a nonempty all-digit character list; `none` otherwise. -/
def parseDigits (l : List Char) : Option Nat :=
  if l ≠ [] ∧ l.all Char.isDigit then some (digitsToNat l) else none

/-- Python `int(str)`: optional surrounding whitespace, optional sign,
then decimal digits; anything else raises `ValueError` (`none` here). -/
def parseIntStr (s : String) : Option Int :=
  match (pyStrip s).data with
  | '-' :: rest => (parseDigits rest).map (fun n => -(n : Int))
  | '+' :: rest => (parseDigits rest).map (fun n => (n : Int))
  | l => (parseDigits l).map (fun n => (n : Int))

/-- Python `int(v)` on a payload value: `some` the resulting integer, `none`
when it raises `ValueError`/`TypeError` (both caught by the validator's
`except` clause). -/
def pyIntCoe : PyVal → Option Int
  | .str s => parseIntStr s
  | .int n => some n
  | .bool b => some (if b then 1 else 0)
  | .float num den => if den = 0 then Option.none else some (Int.tdiv num den)
  | .none => Option.none

/-- A decoded JSON object: an association list with distinct keys. -/
abbrev Payload := List (String × PyVal)

/-- Python `k in data`. -/
def Payload.hasKey (data : Payload) (k : String) : Bool :=
  data.any (fun p => p.1 == k)

/-- Python `data[k]`: `none` models a `KeyError`. -/
def Payload.get (data : Payload) (k : String) : Option PyVal :=
  (data.find? (fun p => p.1 == k)).map (fun p => p.2)

/-- Python `data.get(k)`: absent keys give `None`. -/
def Payload.getD (data : Payload) (k : String) : PyVal :=
  (data.get k).getD .none

/-- The exceptions the embedded code can raise past its own handlers:
`.strip()` on a non-string (`AttributeError`) and `data[k]` on an absent
key (`KeyError`).  Both are swallowed by the handlers' generic `except`. -/
inductive PyExc where
  | attributeError
  | keyError
  deriving DecidableEq, Repr

deriving instance DecidableEq for Except

/-- The required-string rule shared by `title` and `author` in
`validate_book_data`, applied to the value `data.get(k)`:
`if not v or len(v.strip()) == 0: errors.append(msg)`.  A truthy
non-string raises `AttributeError` at `.strip()` (the `or` short-circuits,
so falsy values never reach it). -/
def checkStrFieldV (v : PyVal) (msg : String) : Except PyExc (List String) :=
  if ¬ truthy v then .ok [msg]
  else match v with
    | .str s => if (pyStrip s).length = 0 then .ok [msg] else .ok []
    | _ => .error .attributeError

/-- The `title`/`author` block of `validate_book_data`. -/
def checkStrField (data : Payload) (k : String) (msg : String) :
    Except PyExc (List String) :=
  checkStrFieldV (data.getD k) msg

/-- The `year` rule of `validate_book_data`, applied to `data.get('year')`:
if the value `is not None`, attempt `int(...)` and range-check against the
current year; `ValueError`/`TypeError` are caught and reported.  Otherwise
`Year is required` unless in `partial` mode. -/
def checkYearFieldV (currentYear : Int) (v : PyVal) (part : Bool) :
    List String :=
  if v ≠ .none then
    match pyIntCoe v with
    | some y =>
        if y < 0 ∨ y > currentYear then
          ["Year must be between 0 and " ++ toString currentYear]
        else []
    | Option.none => ["Year must be a valid integer"]
  else if ¬ part then ["Year is required"]
  else []

/-- The `year` block of `validate_book_data`. -/
def checkYearField (currentYear : Int) (data : Payload) (part : Bool) :
    List String :=
  checkYearFieldV currentYear (data.getD "year") part

/-- The `isbn` block of `validate_book_data`:
`if not data.get('isbn') and not partial: errors.append(...)`. -/
def checkIsbnField (data : Payload) (part : Bool) : List String :=
  if ¬ truthy (data.getD "isbn") ∧ ¬ part then ["ISBN is required"] else []

/-- `validate_book_data(data, partial)` from `src/app.py`.  The source
accumulates violations into one `errors` list in a fixed textual order;
here that list is the concatenation of the per-field contributions, in the
same order, on the `Except` channel so that an `AttributeError` raised by a
field check aborts the whole call exactly where the source would.
`datetime.now().year` is the explicit `currentYear` argument. -/
def validate_book_data (currentYear : Int) (data : Payload)
    (part : Bool) : Except PyExc (List String) := do
  let e1 ← if ¬ part ∨ data.hasKey "title" then
      checkStrField data "title" "Title is required" else pure []
  let e2 ← if ¬ part ∨ data.hasKey "author" then
      checkStrField data "author" "Author is required" else pure []
  let e3 := if ¬ part ∨ data.hasKey "year" then
      checkYearField currentYear data part else []
  let e4 := if ¬ part ∨ data.hasKey "isbn" then
      checkIsbnField data part else []
  return e1 ++ e2 ++ e3 ++ e4

/-- The `Book` model: `id` primary key, `created_at` assigned at insert.
`title`, `author`, `year`, `isbn` hold exactly the payload values the
handlers assign to them. -/
structure Book where
  id : Int
  title : PyVal
  author : PyVal
  year : PyVal
  isbn : PyVal
  created_at : Int
  deriving DecidableEq, Repr

/-- `Book.to_dict` returns the six fields verbatim (`created_at` ISO
formatting aside), so the rendered book is the record itself and responses
below carry `Book` values directly. -/
def Book.to_dict (b : Book) : Book := b

/-- The database state: the stored rows in insertion order, the next value
of the `id` sequence, and the clock used for `created_at`. -/
structure DB where
  books : List Book
  nextId : Int
  now : Int
  deriving DecidableEq, Repr

/-- `Book.query.get(id)`. -/
def DB.getById (db : DB) (i : Int) : Option Book :=
  db.books.find? (fun b => b.id == i)

/-- `Book.query.filter_by(isbn=v).first()`. -/
def DB.findByIsbn (db : DB) (v : PyVal) : Option Book :=
  db.books.find? (fun b => b.isbn == v)

/-- `Book.query.filter(Book.isbn == v, Book.id != i).first()`. -/
def DB.findOtherByIsbn (db : DB) (v : PyVal) (i : Int) : Option Book :=
  db.books.find? (fun b => b.isbn == v && ! (b.id == i))

/-- A rendered response body.  Each constructor is one of the JSON shapes
the handlers in `src/app.py` build. -/
inductive Body where
  | errMsg (e : String)
  | errList (es : List String)
  | msgBook (m : String) (b : Book)
  | bookB (b : Book)
  | books (bs : List Book) (total : Nat)
  | msg (m : String)
  deriving DecidableEq, Repr

/-- A handler's return value: HTTP status code and body. -/
abbrev Response := Nat × Body

/-- `GET /books` (`BookList.get`). -/
def bookListGet (db : DB) : Response :=
  (200, .books db.books db.books.length)

/-- The body of `BookList.post` up to (not including) `db.session.commit()`:
either an early response — missing/empty JSON, validation errors, ISBN
conflict, or a 500 from an exception escaping `validate_book_data` or a
`data[...]` lookup — or the fully-built pending `Book` row.  Early exits and
exceptions leave the session with nothing to commit. -/
def postPending (currentYear : Int) (data? : Option Payload) (db : DB) :
    Except Response Book :=
  match data? with
  | Option.none => .error (400, .errMsg "No JSON data provided")
  | some data =>
    if data.isEmpty then .error (400, .errMsg "No JSON data provided")
    else
      match validate_book_data currentYear data false with
      | .error _ => .error (500, .errMsg "Internal server error")
      | .ok errors =>
        if ¬ errors.isEmpty then .error (400, .errList errors)
        else
          match data.get "isbn" with
          | Option.none => .error (500, .errMsg "Internal server error")
          | some isbnV =>
            if (db.findByIsbn isbnV).isSome then
              .error (409, .errMsg "Book with this ISBN already exists")
            else
              match data.get "title", data.get "author", data.get "year" with
              | some t, some a, some y =>
                  .ok { id := db.nextId, title := t, author := a, year := y,
                        isbn := isbnV, created_at := db.now }
              | _, _, _ => .error (500, .errMsg "Internal server error")

/-- `POST /books` (`BookList.post`).  `commitOk` says whether
`db.session.commit()` succeeds; on failure the `except` clause rolls the
session back (store unchanged) and answers 500. -/
def bookListPost (currentYear : Int) (data? : Option Payload)
    (commitOk : Bool) (db : DB) : Response × DB :=
  match postPending currentYear data? db with
  | .error r => (r, db)
  | .ok book =>
    if commitOk then
      ((201, .msgBook "Book created successfully" book.to_dict),
       { books := db.books ++ [book], nextId := db.nextId + 1, now := db.now })
    else ((500, .errMsg "Internal server error"), db)

/-- `GET /books/<id>` (`BookResource.get`). -/
def bookGet (db : DB) (bookId : Int) : Response :=
  match db.getById bookId with
  | Option.none => (404, .errMsg "Book not found")
  | some b => (200, .bookB b.to_dict)

/-- The body of `BookResource.put` up to (not including)
`db.session.commit()`: an early response, or the row with
`title`/`author`/`year`/`isbn` replaced (`id` and `created_at` are not
assigned to). -/
def putPending (currentYear : Int) (bookId : Int) (data? : Option Payload)
    (db : DB) : Except Response Book :=
  match data? with
  | Option.none => .error (400, .errMsg "No JSON data provided")
  | some data =>
    if data.isEmpty then .error (400, .errMsg "No JSON data provided")
    else
      match db.getById bookId with
      | Option.none => .error (404, .errMsg "Book not found")
      | some book =>
        match validate_book_data currentYear data false with
        | .error _ => .error (500, .errMsg "Internal server error")
        | .ok errors =>
          if ¬ errors.isEmpty then .error (400, .errList errors)
          else
            match data.get "isbn" with
            | Option.none => .error (500, .errMsg "Internal server error")
            | some isbnV =>
              if (db.findOtherByIsbn isbnV bookId).isSome then
                .error (409,
                  .errMsg "Another book with this ISBN already exists")
              else
                match data.get "title", data.get "author", data.get "year" with
                | some t, some a, some y =>
                    .ok { book with
                          title := t
                          author := a
                          year := y
                          isbn := isbnV }
                | _, _, _ => .error (500, .errMsg "Internal server error")

/-- `PUT /books/<id>` (`BookResource.put`).  A successful commit persists
the replaced row in place; a failed commit is rolled back and answers 500. -/
def bookPut (currentYear : Int) (bookId : Int) (data? : Option Payload)
    (commitOk : Bool) (db : DB) : Response × DB :=
  match putPending currentYear bookId data? db with
  | .error r => (r, db)
  | .ok book =>
    if commitOk then
      ((200, .msgBook "Book updated successfully" book.to_dict),
       { db with books := db.books.map (fun b => if b.id == bookId then book else b) })
    else ((500, .errMsg "Internal server error"), db)

/-- `DELETE /books/<id>` (`BookResource.delete`). -/
def bookDelete (bookId : Int) (commitOk : Bool) (db : DB) : Response × DB :=
  match db.getById bookId with
  | Option.none => ((404, .errMsg "Book not found"), db)
  | some _ =>
    if commitOk then
      ((200, .msg "Book deleted successfully"),
       { db with books := db.books.filter (fun b => ¬ b.id == bookId) })
    else ((500, .errMsg "Internal server error"), db)

/-- `GET /health` (`health_check`): healthy exactly when the store probe
succeeds. -/
def healthCheck (probeOk : Bool) : Nat × String × String :=
  if probeOk then (200, "healthy", "connected")
  else (500, "unhealthy", "disconnected")

/-- Values of `title`/`author` on which the required-string rule cannot
raise: strings, and falsy values (which short-circuit before `.strip()`). -/
def strLike (v : PyVal) : Bool :=
  match v with
  | .str _ => true
  | v => ! truthy v

/-- Payloads on which `validate_book_data` cannot raise `AttributeError`. -/
def strSafe (data : Payload) : Bool :=
  strLike (data.getD "title") && strLike (data.getD "author")

/-- The error list contributed by the `title`/`author` rule applied to a
value on which it does not raise. -/
def reqErrsV (v : PyVal) (msg : String) : List String :=
  if ¬ truthy v then [msg]
  else match v with
    | .str s => if (pyStrip s).length = 0 then [msg] else []
    | _ => []

/-- The `title`/`author` contribution to the non-partial error list. -/
def reqErrs (data : Payload) (k : String) (msg : String) : List String :=
  reqErrsV (data.getD k) msg

/-- Modelled from the spec (§3/§4.1): the field value is a string that is
non-empty after stripping. -/
def specStrOk (v : PyVal) : Bool :=
  match v with
  | .str s => (pyStrip s).length != 0
  | _ => false

/-- Modelled from the spec (§4.1): `year` is present and parses as an
integer within `[0, currentYear]`. -/
def specYearOk (currentYear : Int) (v : PyVal) : Bool :=
  (v != .none) &&
  (match pyIntCoe v with
   | some y => decide (0 ≤ y) && decide (y ≤ currentYear)
   | Option.none => false)

/-- Modelled from the spec (§4.1): a payload is fully valid in non-partial
mode when `title` and `author` are non-whitespace strings, `year` parses as
an integer in range, and `isbn` is present and truthy. -/
def specFullyValid (currentYear : Int) (data : Payload) : Bool :=
  specStrOk (data.getD "title") && specStrOk (data.getD "author") &&
  specYearOk currentYear (data.getD "year") && truthy (data.getD "isbn")

/-- A probe payload whose `title`, `author` and `isbn` are valid and whose
`year` is the given value: isolates the `year` rule in full calls. -/
def yearProbe (y : PyVal) : Payload :=
  [("title", .str "t"), ("author", .str "a"), ("year", y), ("isbn", .str "i")]

example : validate_book_data 2025
    [("title", .str "Dune"), ("author", .str "Herbert"),
     ("year", .int 1965), ("isbn", .str "9780441013593")] false
    = .ok [] := rfl

example : validate_book_data 2025 [] false
    = .ok ["Title is required", "Author is required",
           "Year is required", "ISBN is required"] := rfl

example : validate_book_data 2025
    [("title", .int 7), ("author", .str "a"),
     ("year", .int 2000), ("isbn", .str "x")] false
    = .error .attributeError := rfl

example : validate_book_data 2025
    [("title", .str "t"), ("author", .str "a"),
     ("year", .str "abc"), ("isbn", .str "x")] false
    = .ok ["Year must be a valid integer"] := rfl

example : validate_book_data 2025
    [("title", .str "t"), ("author", .str "a"),
     ("year", .str "1965"), ("isbn", .str "x")] false
    = .ok [] := rfl

example :
    bookListPost 2025
      (some [("title", .str "Dune"), ("author", .str "Herbert"),
             ("year", .int 1965), ("isbn", .str "9780441013593")]) true
      ⟨[], 1, 100⟩
    = ((201, .msgBook "Book created successfully"
          ⟨1, .str "Dune", .str "Herbert", .int 1965,
           .str "9780441013593", 100⟩),
       ⟨[⟨1, .str "Dune", .str "Herbert", .int 1965,
          .str "9780441013593", 100⟩], 2, 100⟩) := rfl

/-! ### Basic lemmas about payload access and the field checks -/

theorem truthy_ne_none {v : PyVal} (h : truthy v = true) : v ≠ .none := by
  intro he; subst he; simp [truthy] at h

theorem Payload.get_of_getD_ne_none {d : Payload} {k : String}
    (h : d.getD k ≠ .none) : d.get k = some (d.getD k) := by
  unfold Payload.getD at h ⊢
  cases hg : d.get k with
  | none => simp [hg] at h
  | some v => simp [hg]

theorem Payload.get_of_truthy {d : Payload} {k : String}
    (h : truthy (d.getD k) = true) : d.get k = some (d.getD k) :=
  Payload.get_of_getD_ne_none (truthy_ne_none h)

theorem Payload.isEmpty_false_of_get {d : Payload} {k : String} {v : PyVal}
    (h : d.get k = some v) : d.isEmpty = false := by
  cases d with
  | nil => simp [Payload.get] at h
  | cons hd tl => simp

theorem checkStrFieldV_eq_reqErrsV {v : PyVal} {m : String}
    (h : strLike v = true) : checkStrFieldV v m = .ok (reqErrsV v m) := by
  cases v with
  | str s =>
      unfold checkStrFieldV reqErrsV
      by_cases ht : truthy (PyVal.str s) = true
      · have hnt : ¬ (¬ truthy (PyVal.str s) = true) := by simp [ht]
        rw [if_neg hnt, if_neg hnt]
        show (if (pyStrip s).length = 0 then
            (Except.ok [m] : Except PyExc (List String)) else .ok [])
          = .ok (if (pyStrip s).length = 0 then [m] else [])
        split_ifs <;> rfl
      · have hnt : (¬ truthy (PyVal.str s) = true) := by simp [ht]
        rw [if_pos hnt, if_pos hnt]
  | int n => simp_all [checkStrFieldV, reqErrsV, strLike, truthy]
  | bool b => simp_all [checkStrFieldV, reqErrsV, strLike, truthy]
  | float num den => simp_all [checkStrFieldV, reqErrsV, strLike, truthy]
  | none => simp_all [checkStrFieldV, reqErrsV, strLike, truthy]

theorem checkStrFieldV_ok_nil_truthy {v : PyVal} {m : String}
    (h : checkStrFieldV v m = .ok []) : truthy v = true := by
  by_cases ht : truthy v = true
  · exact ht
  · simp [checkStrFieldV, ht] at h

theorem checkIsbnField_nil_truthy {d : Payload}
    (h : checkIsbnField d false = []) : truthy (d.getD "isbn") = true := by
  by_cases ht : truthy (d.getD "isbn") = true
  · exact ht
  · simp [checkIsbnField, ht] at h

theorem checkYearFieldV_nil_ne_none {cy : Int} {v : PyVal}
    (h : checkYearFieldV cy v false = []) : v ≠ .none := by
  intro he; subst he; simp [checkYearFieldV] at h

theorem exceptBind_ok {ε α β : Type} (a : α) (f : α → Except ε β) :
    (Except.ok a >>= f : Except ε β) = f a := rfl

theorem exceptBind_err {ε α β : Type} (e : ε) (f : α → Except ε β) :
    (Except.error e >>= f : Except ε β) = .error e := rfl

theorem validate_false_eq {cy : Int} {d : Payload} (h : strSafe d = true) :
    validate_book_data cy d false =
      .ok (reqErrs d "title" "Title is required" ++
           reqErrs d "author" "Author is required" ++
           checkYearField cy d false ++ checkIsbnField d false) := by
  unfold strSafe at h
  rw [Bool.and_eq_true] at h
  unfold validate_book_data checkStrField reqErrs
  simp only [checkStrFieldV_eq_reqErrsV h.1, checkStrFieldV_eq_reqErrsV h.2,
    Bool.not_eq_true, not_false_eq_true, true_or, if_pos, exceptBind_ok]
  rfl

theorem validate_ok_nil_parts {cy : Int} {d : Payload}
    (h : validate_book_data cy d false = .ok []) :
    truthy (d.getD "title") = true ∧ truthy (d.getD "author") = true ∧
    checkYearField cy d false = [] ∧ truthy (d.getD "isbn") = true := by
  unfold validate_book_data checkStrField at h
  cases h1 : checkStrFieldV (d.getD "title") "Title is required" with
  | error e => simp [h1, exceptBind_err] at h
  | ok e1 =>
    cases h2 : checkStrFieldV (d.getD "author") "Author is required" with
    | error e => simp [h1, h2, exceptBind_ok, exceptBind_err] at h
    | ok e2 =>
      simp only [Bool.not_eq_true, not_false_eq_true, true_or, if_pos,
        h1, h2, exceptBind_ok] at h
      simp only [pure, Except.pure, Except.ok.injEq,
        List.append_eq_nil] at h
      obtain ⟨⟨⟨he1, he2⟩, he3⟩, he4⟩ := h
      subst he1; subst he2
      refine ⟨checkStrFieldV_ok_nil_truthy h1,
        checkStrFieldV_ok_nil_truthy h2, he3,
        checkIsbnField_nil_truthy he4⟩


theorem reqErrsV_nil_iff {v : PyVal} {m : String} (h : strLike v = true) :
    reqErrsV v m = [] ↔ specStrOk v = true := by
  cases v with
  | str s =>
      by_cases hs : s = ""
      · subst hs
        have h0 : specStrOk (.str "") = false := rfl
        simp [reqErrsV, truthy, h0]
      · have ht : truthy (.str s) = true := by simp [truthy, hs]
        simp only [reqErrsV, ht, not_true_eq_false, if_neg,
          Bool.false_eq_true, not_false_eq_true, specStrOk]
        by_cases hl : (pyStrip s).length = 0 <;> simp [hl]
  | int n => simp_all [reqErrsV, specStrOk, strLike, truthy]
  | bool b => simp_all [reqErrsV, specStrOk, strLike, truthy]
  | float num den => simp_all [reqErrsV, specStrOk, strLike, truthy]
  | none => simp [reqErrsV, specStrOk, truthy]

theorem yearRange_nil_iff {cy y : Int} :
    (if y < 0 ∨ y > cy then
        ["Year must be between 0 and " ++ toString cy]
      else ([] : List String)) = []
      ↔ (decide (0 ≤ y) && decide (y ≤ cy)) = true := by
  simp only [Bool.and_eq_true, decide_eq_true_eq]
  split_ifs with hr
  · constructor
    · intro hx; exact absurd hx (by simp)
    · intro hx; exfalso; rcases hr with hr | hr <;> omega
  · push_neg at hr
    simp only [true_iff]
    omega

theorem checkYearFieldV_nil_iff {cy : Int} {v : PyVal} :
    checkYearFieldV cy v false = [] ↔ specYearOk cy v = true := by
  unfold checkYearFieldV specYearOk
  by_cases hv : v = PyVal.none
  · subst hv; simp
  · have hbne : (v != PyVal.none) = true := by simp [hv]
    cases hc : pyIntCoe v with
    | none => simp [hv, hc]
    | some y => simp [hv, hc, hbne, yearRange_nil_iff]

theorem checkIsbnField_nil_iff {d : Payload} :
    checkIsbnField d false = [] ↔ truthy (d.getD "isbn") = true := by
  unfold checkIsbnField
  by_cases ht : truthy (d.getD "isbn") = true <;> simp [ht]

theorem find?_append_singleton {α : Type} (p : α → Bool) (l : List α) (b : α)
    (h : ∀ x ∈ l, ¬ p x = true) :
    (l ++ [b]).find? p = if p b then some b else Option.none := by
  induction l with
  | nil =>
      rw [List.nil_append]
      cases hpb : p b <;> simp [List.find?_cons, hpb]
  | cons hd tl ih =>
    have hhd : p hd = false := by
      have := h hd (by simp)
      cases hph : p hd
      · rfl
      · exact absurd hph this
    rw [List.cons_append, List.find?_cons, hhd]
    exact ih (fun x hx => h x (by simp [hx]))

theorem find?_map_replace {l : List Book} {i : Int} {bk bk' : Book}
    (hfind : l.find? (fun b => b.id == i) = some bk) (hid : bk'.id = i) :
    (l.map (fun b => if b.id == i then bk' else b)).find?
        (fun b => b.id == i) = some bk' := by
  induction l with
  | nil => simp [List.find?] at hfind
  | cons hd tl ih =>
    cases hp : (hd.id == i) with
    | true =>
        simp only [List.map_cons, if_pos hp, List.find?_cons]
        have hb : (bk'.id == i) = true := by simp [hid]
        simp [hb]
    | false =>
        have hnp : ¬ ((hd.id == i) = true) := by simp [hp]
        have hstep :
            List.map (fun b => if b.id == i then bk' else b) (hd :: tl)
              = hd :: List.map (fun b => if b.id == i then bk' else b) tl := by
          rw [List.map_cons, if_neg hnp]
        rw [hstep, List.find?_cons]
        rw [List.find?_cons] at hfind
        simp only [hp] at hfind ⊢
        exact ih hfind

theorem validate_yearProbe (cy : Int) (y : PyVal) :
    validate_book_data cy (yearProbe y) false
      = .ok (checkYearFieldV cy y false) := by
  have hs : strSafe (yearProbe y) = true := rfl
  rw [validate_false_eq hs]
  have h1 : reqErrs (yearProbe y) "title" "Title is required" = [] := rfl
  have h2 : reqErrs (yearProbe y) "author" "Author is required" = [] := rfl
  have h3 : checkYearField cy (yearProbe y) false
      = checkYearFieldV cy y false := rfl
  have h4 : checkIsbnField (yearProbe y) false = [] := rfl
  rw [h1, h2, h3, h4]
  simp

/-! ### The claims -/

/-- C3 counterexample: on the payload `{title: 1}` the validator does not
collect the remaining violations (nor return any list): the truthy
non-string title makes `.strip()` raise `AttributeError`, short-circuiting
the author/year/isbn rules, although the spec's rules would report the
three missing-field messages. -/
theorem validate_not_total_cex :
    validate_book_data 2025 [("title", PyVal.int 1)] false
        = .error .attributeError ∧
    validate_book_data 2025 [("title", PyVal.int 1)] false
        ≠ .ok ["Author is required", "Year is required", "ISBN is required"]
    := by decide

/-- C3 (amended): for every payload whose `title` and `author` values are
strings or falsy (so that the string rule cannot raise),
`validate(payload, partial=false)` returns the concatenation of the four
independent field-rule contributions in the fixed order title, author,
year, isbn, and that list is empty exactly when the payload is fully valid
in the spec's sense. -/
theorem validate_independent_ordered_complete (cy : Int) (d : Payload)
    (h : strSafe d = true) :
    validate_book_data cy d false =
      .ok (reqErrs d "title" "Title is required" ++
           reqErrs d "author" "Author is required" ++
           checkYearField cy d false ++ checkIsbnField d false) ∧
    (validate_book_data cy d false = .ok [] ↔
      specFullyValid cy d = true) := by
  refine ⟨validate_false_eq h, ?_⟩
  rw [validate_false_eq h]
  have hs := h
  unfold strSafe at hs
  rw [Bool.and_eq_true] at hs
  unfold reqErrs checkYearField specFullyValid
  simp only [Except.ok.injEq, List.append_eq_nil]
  rw [reqErrsV_nil_iff hs.1, reqErrsV_nil_iff hs.2,
    checkYearFieldV_nil_iff, checkIsbnField_nil_iff]
  simp only [Bool.and_eq_true]

/-- C3-amended witness: the Dune payload is string-safe, validates to the
empty error list, and is fully valid in the spec's sense. -/
theorem validate_independent_ordered_complete_witness :
    strSafe [("title", PyVal.str "Dune"), ("author", PyVal.str "Herbert"),
      ("year", PyVal.int 1965), ("isbn", PyVal.str "9780441013593")] = true ∧
    (validate_book_data 2025
        [("title", PyVal.str "Dune"), ("author", PyVal.str "Herbert"),
         ("year", PyVal.int 1965), ("isbn", PyVal.str "9780441013593")]
        false =
      .ok (reqErrs [("title", PyVal.str "Dune"), ("author", PyVal.str "Herbert"),
             ("year", PyVal.int 1965), ("isbn", PyVal.str "9780441013593")]
             "title" "Title is required" ++
           reqErrs [("title", PyVal.str "Dune"), ("author", PyVal.str "Herbert"),
             ("year", PyVal.int 1965), ("isbn", PyVal.str "9780441013593")]
             "author" "Author is required" ++
           checkYearField 2025
             [("title", PyVal.str "Dune"), ("author", PyVal.str "Herbert"),
              ("year", PyVal.int 1965), ("isbn", PyVal.str "9780441013593")]
             false ++
           checkIsbnField
             [("title", PyVal.str "Dune"), ("author", PyVal.str "Herbert"),
              ("year", PyVal.int 1965), ("isbn", PyVal.str "9780441013593")]
             false) ∧
      (validate_book_data 2025
          [("title", PyVal.str "Dune"), ("author", PyVal.str "Herbert"),
           ("year", PyVal.int 1965), ("isbn", PyVal.str "9780441013593")]
          false = .ok [] ↔
        specFullyValid 2025
          [("title", PyVal.str "Dune"), ("author", PyVal.str "Herbert"),
           ("year", PyVal.int 1965), ("isbn", PyVal.str "9780441013593")]
          = true)) :=
  ⟨rfl, validate_independent_ordered_complete 2025
    [("title", PyVal.str "Dune"), ("author", PyVal.str "Herbert"),
     ("year", PyVal.int 1965), ("isbn", PyVal.str "9780441013593")] rfl⟩

/-- C4: in non-partial mode, with the other fields valid, the year rule of
`validate_book_data` yields the range error for `-1` and for
`currentYear + 1`, the integer error for `"abc"`, no error for
`currentYear`, and the required error when `year` is absent. -/
theorem year_rule_cases (cy : Int) (h : 0 ≤ cy) :
    validate_book_data cy (yearProbe (.int (-1))) false
      = .ok ["Year must be between 0 and " ++ toString cy] ∧
    validate_book_data cy (yearProbe (.int (cy + 1))) false
      = .ok ["Year must be between 0 and " ++ toString cy] ∧
    validate_book_data cy (yearProbe (.str "abc")) false
      = .ok ["Year must be a valid integer"] ∧
    validate_book_data cy (yearProbe (.int cy)) false
      = .ok [] ∧
    validate_book_data cy
        [("title", .str "t"), ("author", .str "a"), ("isbn", .str "i")] false
      = .ok ["Year is required"] := by
  refine ⟨?_, ?_, ?_, ?_, ?_⟩
  · rw [validate_yearProbe]
    have h1 : checkYearFieldV cy (.int (-1)) false
        = if (-1:Int) < 0 ∨ (-1:Int) > cy then
            ["Year must be between 0 and " ++ toString cy] else [] := rfl
    rw [h1, if_pos (Or.inl (by norm_num))]
  · rw [validate_yearProbe]
    have h2 : checkYearFieldV cy (.int (cy + 1)) false
        = if cy + 1 < 0 ∨ cy + 1 > cy then
            ["Year must be between 0 and " ++ toString cy] else [] := rfl
    rw [h2, if_pos (Or.inr (by omega))]
  · rw [validate_yearProbe]
    rfl
  · rw [validate_yearProbe]
    have h4 : checkYearFieldV cy (.int cy) false
        = if cy < 0 ∨ cy > cy then
            ["Year must be between 0 and " ++ toString cy] else [] := rfl
    rw [h4, if_neg (by omega)]
  · rfl

/-- C4 witness: the five year-rule cases at the concrete current year
2025. -/
theorem year_rule_cases_witness :
    (0:Int) ≤ 2025 ∧
    (validate_book_data 2025 (yearProbe (.int (-1))) false
        = .ok ["Year must be between 0 and " ++ toString (2025:Int)] ∧
      validate_book_data 2025 (yearProbe (.int (2025 + 1))) false
        = .ok ["Year must be between 0 and " ++ toString (2025:Int)] ∧
      validate_book_data 2025 (yearProbe (.str "abc")) false
        = .ok ["Year must be a valid integer"] ∧
      validate_book_data 2025 (yearProbe (.int 2025)) false
        = .ok [] ∧
      validate_book_data 2025
          [("title", .str "t"), ("author", .str "a"), ("isbn", .str "i")]
          false
        = .ok ["Year is required"]) :=
  ⟨by norm_num, year_rule_cases 2025 (by norm_num)⟩

/-- C1: for every valid payload whose isbn is not already stored (and any
store whose rows do not use the next id), `create` succeeds with the
assigned `id`/`created_at`, stores exactly the four input field values, and
a subsequent `get` on the assigned id returns that same Book. -/
theorem create_then_get_roundtrip (cy : Int) (db : DB) (d : Payload)
    (hval : validate_book_data cy d false = .ok [])
    (hfresh : ∀ b ∈ db.books, d.get "isbn" ≠ some b.isbn)
    (hid : ∀ b ∈ db.books, b.id ≠ db.nextId) :
    ∃ t a y i,
      d.get "title" = some t ∧ d.get "author" = some a ∧
      d.get "year" = some y ∧ d.get "isbn" = some i ∧
      bookListPost cy (some d) true db =
        ((201, .msgBook "Book created successfully"
            ⟨db.nextId, t, a, y, i, db.now⟩),
         ⟨db.books ++ [⟨db.nextId, t, a, y, i, db.now⟩],
          db.nextId + 1, db.now⟩) ∧
      bookGet (bookListPost cy (some d) true db).2 db.nextId
        = (200, .bookB ⟨db.nextId, t, a, y, i, db.now⟩) := by
  obtain ⟨ht, ha, hy, hi⟩ := validate_ok_nil_parts hval
  have hgt : d.get "title" = some (d.getD "title") := Payload.get_of_truthy ht
  have hga : d.get "author" = some (d.getD "author") :=
    Payload.get_of_truthy ha
  have hgy : d.get "year" = some (d.getD "year") :=
    Payload.get_of_getD_ne_none (checkYearFieldV_nil_ne_none hy)
  have hgi : d.get "isbn" = some (d.getD "isbn") := Payload.get_of_truthy hi
  have hne : d.isEmpty = false := Payload.isEmpty_false_of_get hgt
  have hfind : db.findByIsbn (d.getD "isbn") = Option.none := by
    unfold DB.findByIsbn
    rw [List.find?_eq_none]
    intro b hb
    simp only [beq_iff_eq]
    intro hbe
    exact hfresh b hb (by rw [hgi, hbe])
  have hpend : postPending cy (some d) db =
      .ok ⟨db.nextId, d.getD "title", d.getD "author", d.getD "year",
           d.getD "isbn", db.now⟩ := by
    simp [postPending, hne, hval, hgi, hgt, hga, hgy, hfind]
  have hpost : bookListPost cy (some d) true db =
      ((201, .msgBook "Book created successfully"
          ⟨db.nextId, d.getD "title", d.getD "author", d.getD "year",
           d.getD "isbn", db.now⟩),
       ⟨db.books ++ [⟨db.nextId, d.getD "title", d.getD "author",
          d.getD "year", d.getD "isbn", db.now⟩],
        db.nextId + 1, db.now⟩) := by
    unfold bookListPost
    rw [hpend]
    rfl
  refine ⟨d.getD "title", d.getD "author", d.getD "year", d.getD "isbn",
    hgt, hga, hgy, hgi, hpost, ?_⟩
  rw [hpost]
  unfold bookGet DB.getById
  have hstep := find?_append_singleton (fun b => b.id == db.nextId) db.books
    ⟨db.nextId, d.getD "title", d.getD "author", d.getD "year",
     d.getD "isbn", db.now⟩
    (by intro b hb; simp only [beq_iff_eq]; exact hid b hb)
  simp only [hstep]
  simp [Book.to_dict]

/-- C1 witness: creating Dune in the empty store and reading id 1 back. -/
theorem create_then_get_roundtrip_witness :
    ∃ t a y i,
      Payload.get [("title", PyVal.str "Dune"), ("author", PyVal.str "Herbert"),
        ("year", PyVal.int 1965), ("isbn", PyVal.str "9780441013593")]
        "title" = some t ∧
      Payload.get [("title", PyVal.str "Dune"), ("author", PyVal.str "Herbert"),
        ("year", PyVal.int 1965), ("isbn", PyVal.str "9780441013593")]
        "author" = some a ∧
      Payload.get [("title", PyVal.str "Dune"), ("author", PyVal.str "Herbert"),
        ("year", PyVal.int 1965), ("isbn", PyVal.str "9780441013593")]
        "year" = some y ∧
      Payload.get [("title", PyVal.str "Dune"), ("author", PyVal.str "Herbert"),
        ("year", PyVal.int 1965), ("isbn", PyVal.str "9780441013593")]
        "isbn" = some i ∧
      bookListPost 2025
        (some [("title", PyVal.str "Dune"), ("author", PyVal.str "Herbert"),
          ("year", PyVal.int 1965), ("isbn", PyVal.str "9780441013593")])
        true ⟨[], 1, 100⟩ =
        ((201, .msgBook "Book created successfully" ⟨1, t, a, y, i, 100⟩),
         ⟨[] ++ [⟨1, t, a, y, i, 100⟩], 1 + 1, 100⟩) ∧
      bookGet (bookListPost 2025
        (some [("title", PyVal.str "Dune"), ("author", PyVal.str "Herbert"),
          ("year", PyVal.int 1965), ("isbn", PyVal.str "9780441013593")])
        true ⟨[], 1, 100⟩).2 1
        = (200, .bookB ⟨1, t, a, y, i, 100⟩) :=
  create_then_get_roundtrip 2025 ⟨[], 1, 100⟩
    [("title", PyVal.str "Dune"), ("author", PyVal.str "Herbert"),
     ("year", PyVal.int 1965), ("isbn", PyVal.str "9780441013593")]
    rfl (by simp) (by simp)

/-- C2: two sequential creates with the same isbn (both payloads otherwise
valid, the isbn previously unused): the first answers 201, the second
answers 409 Conflict because `BookList.post` consults the repository by
isbn before persisting, and the store then holds exactly one Book with
that isbn. -/
theorem duplicate_isbn_conflict (cy : Int) (db : DB) (d1 d2 : Payload)
    (hval1 : validate_book_data cy d1 false = .ok [])
    (hval2 : validate_book_data cy d2 false = .ok [])
    (hsame : d2.get "isbn" = d1.get "isbn")
    (hfresh : ∀ b ∈ db.books, d1.get "isbn" ≠ some b.isbn) :
    ∃ i db1,
      d1.get "isbn" = some i ∧
      (bookListPost cy (some d1) true db).1.1 = 201 ∧
      (bookListPost cy (some d1) true db).2 = db1 ∧
      bookListPost cy (some d2) true db1 =
        ((409, .errMsg "Book with this ISBN already exists"), db1) ∧
      db1.books.countP (fun b => b.isbn == i) = 1 := by
  obtain ⟨ht, ha, hy, hi⟩ := validate_ok_nil_parts hval1
  have hgt : d1.get "title" = some (d1.getD "title") := Payload.get_of_truthy ht
  have hga : d1.get "author" = some (d1.getD "author") :=
    Payload.get_of_truthy ha
  have hgy : d1.get "year" = some (d1.getD "year") :=
    Payload.get_of_getD_ne_none (checkYearFieldV_nil_ne_none hy)
  have hgi : d1.get "isbn" = some (d1.getD "isbn") := Payload.get_of_truthy hi
  have hne : d1.isEmpty = false := Payload.isEmpty_false_of_get hgt
  have hfind : db.findByIsbn (d1.getD "isbn") = Option.none := by
    unfold DB.findByIsbn
    rw [List.find?_eq_none]
    intro b hb
    simp only [beq_iff_eq]
    intro hbe
    exact hfresh b hb (by rw [hgi, hbe])
  have hpend : postPending cy (some d1) db =
      .ok ⟨db.nextId, d1.getD "title", d1.getD "author", d1.getD "year",
           d1.getD "isbn", db.now⟩ := by
    simp [postPending, hne, hval1, hgi, hgt, hga, hgy, hfind]
  have hpost : bookListPost cy (some d1) true db =
      ((201, .msgBook "Book created successfully"
          ⟨db.nextId, d1.getD "title", d1.getD "author", d1.getD "year",
           d1.getD "isbn", db.now⟩),
       ⟨db.books ++ [⟨db.nextId, d1.getD "title", d1.getD "author",
          d1.getD "year", d1.getD "isbn", db.now⟩],
        db.nextId + 1, db.now⟩) := by
    unfold bookListPost
    rw [hpend]
    rfl
  obtain ⟨ht2, ha2, hy2, hi2⟩ := validate_ok_nil_parts hval2
  have hgt2 : d2.get "title" = some (d2.getD "title") :=
    Payload.get_of_truthy ht2
  have hgi2 : d2.get "isbn" = some (d2.getD "isbn") :=
    Payload.get_of_truthy hi2
  have hne2 : d2.isEmpty = false := Payload.isEmpty_false_of_get hgt2
  have hii : d2.getD "isbn" = d1.getD "isbn" := by
    have hx := hsame
    rw [hgi2, hgi] at hx
    exact Option.some.inj hx
  refine ⟨d1.getD "isbn",
    ⟨db.books ++ [⟨db.nextId, d1.getD "title", d1.getD "author",
       d1.getD "year", d1.getD "isbn", db.now⟩], db.nextId + 1, db.now⟩,
    hgi, by rw [hpost], by rw [hpost], ?_, ?_⟩
  · have hfind2 : DB.findByIsbn
        ⟨db.books ++ [⟨db.nextId, d1.getD "title", d1.getD "author",
           d1.getD "year", d1.getD "isbn", db.now⟩], db.nextId + 1, db.now⟩
        (d2.getD "isbn") =
        some ⟨db.nextId, d1.getD "title", d1.getD "author",
           d1.getD "year", d1.getD "isbn", db.now⟩ := by
      unfold DB.findByIsbn
      rw [hii]
      have hstep := find?_append_singleton
        (fun b => b.isbn == d1.getD "isbn") db.books
        ⟨db.nextId, d1.getD "title", d1.getD "author",
         d1.getD "year", d1.getD "isbn", db.now⟩
        (by
          intro b hb
          simp only [beq_iff_eq]
          intro hbe
          exact hfresh b hb (by rw [hgi, hbe]))
      simp only [hstep]
      simp
    have hpend2 : postPending cy (some d2)
        ⟨db.books ++ [⟨db.nextId, d1.getD "title", d1.getD "author",
           d1.getD "year", d1.getD "isbn", db.now⟩],
         db.nextId + 1, db.now⟩ =
        .error (409, .errMsg "Book with this ISBN already exists") := by
      simp [postPending, hne2, hval2, hgi2, hfind2]
    unfold bookListPost
    rw [hpend2]
  · simp only [List.countP_append]
    have h0 : db.books.countP (fun b => b.isbn == d1.getD "isbn") = 0 := by
      rw [List.countP_eq_zero]
      intro b hb
      simp only [beq_iff_eq]
      intro hbe
      exact hfresh b hb (by rw [hgi, hbe])
    rw [h0]
    simp

/-- C2 witness: the Dune payload created twice from the empty store. -/
theorem duplicate_isbn_conflict_witness :
    ∃ i db1,
      Payload.get [("title", PyVal.str "Dune"), ("author", PyVal.str "Herbert"),
        ("year", PyVal.int 1965), ("isbn", PyVal.str "9780441013593")]
        "isbn" = some i ∧
      (bookListPost 2025
        (some [("title", PyVal.str "Dune"), ("author", PyVal.str "Herbert"),
          ("year", PyVal.int 1965), ("isbn", PyVal.str "9780441013593")])
        true ⟨[], 1, 100⟩).1.1 = 201 ∧
      (bookListPost 2025
        (some [("title", PyVal.str "Dune"), ("author", PyVal.str "Herbert"),
          ("year", PyVal.int 1965), ("isbn", PyVal.str "9780441013593")])
        true ⟨[], 1, 100⟩).2 = db1 ∧
      bookListPost 2025
        (some [("title", PyVal.str "Dune"), ("author", PyVal.str "Herbert"),
          ("year", PyVal.int 1965), ("isbn", PyVal.str "9780441013593")])
        true db1 =
        ((409, Body.errMsg "Book with this ISBN already exists"), db1) ∧
      db1.books.countP (fun b => b.isbn == i) = 1 :=
  duplicate_isbn_conflict 2025 ⟨[], 1, 100⟩
    [("title", PyVal.str "Dune"), ("author", PyVal.str "Herbert"),
     ("year", PyVal.int 1965), ("isbn", PyVal.str "9780441013593")]
    [("title", PyVal.str "Dune"), ("author", PyVal.str "Herbert"),
     ("year", PyVal.int 1965), ("isbn", PyVal.str "9780441013593")]
    rfl rfl rfl (by simp)

/-- C5: for a stored Book and a valid payload, `PUT /books/<id>` with an
isbn held by a different Book answers 409 Conflict and leaves the store
unchanged; with the Book's own unchanged isbn it succeeds and replaces
title/author/year/isbn while `id` and `created_at` stay what they were. -/
theorem update_conflict_and_replace (cy : Int) (db : DB) (bid : Int)
    (d : Payload) (book : Book)
    (hget : db.getById bid = some book)
    (hval : validate_book_data cy d false = .ok []) :
    ((∃ b, b ∈ db.books ∧ b.isbn = d.getD "isbn" ∧ b.id ≠ bid) →
      bookPut cy bid (some d) true db =
        ((409, .errMsg "Another book with this ISBN already exists"), db)) ∧
    ((d.getD "isbn" = book.isbn ∧
        (∀ b ∈ db.books, b.isbn = book.isbn → b.id = bid)) →
      bookPut cy bid (some d) true db =
        ((200, .msgBook "Book updated successfully"
            ⟨book.id, d.getD "title", d.getD "author", d.getD "year",
             book.isbn, book.created_at⟩),
         ⟨db.books.map (fun b => if b.id == bid then
              ⟨book.id, d.getD "title", d.getD "author", d.getD "year",
               book.isbn, book.created_at⟩ else b),
          db.nextId, db.now⟩) ∧
      DB.getById (bookPut cy bid (some d) true db).2 bid =
        some ⟨book.id, d.getD "title", d.getD "author", d.getD "year",
              book.isbn, book.created_at⟩) := by
  obtain ⟨ht, ha, hy, hi⟩ := validate_ok_nil_parts hval
  have hgt : d.get "title" = some (d.getD "title") := Payload.get_of_truthy ht
  have hga : d.get "author" = some (d.getD "author") :=
    Payload.get_of_truthy ha
  have hgy : d.get "year" = some (d.getD "year") :=
    Payload.get_of_getD_ne_none (checkYearFieldV_nil_ne_none hy)
  have hgi : d.get "isbn" = some (d.getD "isbn") := Payload.get_of_truthy hi
  have hne : d.isEmpty = false := Payload.isEmpty_false_of_get hgt
  have hbid : book.id = bid := by
    have hx := List.find?_some hget
    simpa using hx
  constructor
  · rintro ⟨b, hb, hbisbn, hbneq⟩
    have hsome : (db.findOtherByIsbn (d.getD "isbn") bid).isSome = true := by
      unfold DB.findOtherByIsbn
      rw [List.find?_isSome]
      refine ⟨b, hb, ?_⟩
      simp [hbisbn, hbneq]
    have hpend : putPending cy bid (some d) db =
        .error (409, .errMsg "Another book with this ISBN already exists")
        := by
      simp [putPending, hne, hget, hval, hgi, hsome]
    unfold bookPut
    rw [hpend]
  · rintro ⟨hown, huniq⟩
    have hnone : db.findOtherByIsbn (d.getD "isbn") bid = Option.none := by
      unfold DB.findOtherByIsbn
      rw [List.find?_eq_none]
      intro b hb
      simp only [Bool.and_eq_true, Bool.not_eq_true', beq_eq_false_iff_ne,
        ne_eq, not_and, beq_iff_eq]
      intro hbisbn
      rw [hown] at hbisbn
      simp [huniq b hb hbisbn]
    rw [hown] at hnone
    have hpend : putPending cy bid (some d) db =
        .ok ⟨book.id, d.getD "title", d.getD "author", d.getD "year",
             book.isbn, book.created_at⟩ := by
      simp [putPending, hne, hget, hval, hgi, hgt, hga, hgy, hnone, hown]
    have hput : bookPut cy bid (some d) true db =
        ((200, .msgBook "Book updated successfully"
            ⟨book.id, d.getD "title", d.getD "author", d.getD "year",
             book.isbn, book.created_at⟩),
         ⟨db.books.map (fun b => if b.id == bid then
              ⟨book.id, d.getD "title", d.getD "author", d.getD "year",
               book.isbn, book.created_at⟩ else b),
          db.nextId, db.now⟩) := by
      unfold bookPut
      rw [hpend]
      rfl
    refine ⟨hput, ?_⟩
    rw [hput]
    unfold DB.getById
    exact find?_map_replace hget hbid

/-- C5 witness: in a store with two books, updating book 1 to book 2's
isbn conflicts; updating it with its own isbn replaces the fields and
keeps `id`/`created_at`. -/
theorem update_conflict_and_replace_witness :
    (bookPut 2025 1
        (some [("title", PyVal.str "New"), ("author", PyVal.str "N"),
               ("year", PyVal.int 2000), ("isbn", PyVal.str "isbn2")])
        true
        ⟨[⟨1, PyVal.str "T1", PyVal.str "A1", PyVal.int 2000,
           PyVal.str "isbn1", 50⟩,
          ⟨2, PyVal.str "T2", PyVal.str "A2", PyVal.int 2001,
           PyVal.str "isbn2", 60⟩], 3, 100⟩ =
      ((409, Body.errMsg "Another book with this ISBN already exists"),
       ⟨[⟨1, PyVal.str "T1", PyVal.str "A1", PyVal.int 2000,
          PyVal.str "isbn1", 50⟩,
         ⟨2, PyVal.str "T2", PyVal.str "A2", PyVal.int 2001,
          PyVal.str "isbn2", 60⟩], 3, 100⟩)) ∧
    (bookPut 2025 1
        (some [("title", PyVal.str "New"), ("author", PyVal.str "N"),
               ("year", PyVal.int 2000), ("isbn", PyVal.str "isbn1")])
        true
        ⟨[⟨1, PyVal.str "T1", PyVal.str "A1", PyVal.int 2000,
           PyVal.str "isbn1", 50⟩,
          ⟨2, PyVal.str "T2", PyVal.str "A2", PyVal.int 2001,
           PyVal.str "isbn2", 60⟩], 3, 100⟩ =
      ((200, Body.msgBook "Book updated successfully"
          ⟨1, PyVal.str "New", PyVal.str "N", PyVal.int 2000,
           PyVal.str "isbn1", 50⟩),
       ⟨[⟨1, PyVal.str "New", PyVal.str "N", PyVal.int 2000,
          PyVal.str "isbn1", 50⟩,
         ⟨2, PyVal.str "T2", PyVal.str "A2", PyVal.int 2001,
          PyVal.str "isbn2", 60⟩], 3, 100⟩) ∧
      DB.getById (bookPut 2025 1
        (some [("title", PyVal.str "New"), ("author", PyVal.str "N"),
               ("year", PyVal.int 2000), ("isbn", PyVal.str "isbn1")])
        true
        ⟨[⟨1, PyVal.str "T1", PyVal.str "A1", PyVal.int 2000,
           PyVal.str "isbn1", 50⟩,
          ⟨2, PyVal.str "T2", PyVal.str "A2", PyVal.int 2001,
           PyVal.str "isbn2", 60⟩], 3, 100⟩).2 1 =
        some ⟨1, PyVal.str "New", PyVal.str "N", PyVal.int 2000,
              PyVal.str "isbn1", 50⟩) :=
  ⟨(update_conflict_and_replace 2025
      ⟨[⟨1, PyVal.str "T1", PyVal.str "A1", PyVal.int 2000,
         PyVal.str "isbn1", 50⟩,
        ⟨2, PyVal.str "T2", PyVal.str "A2", PyVal.int 2001,
         PyVal.str "isbn2", 60⟩], 3, 100⟩ 1
      [("title", PyVal.str "New"), ("author", PyVal.str "N"),
       ("year", PyVal.int 2000), ("isbn", PyVal.str "isbn2")]
      ⟨1, PyVal.str "T1", PyVal.str "A1", PyVal.int 2000,
       PyVal.str "isbn1", 50⟩ rfl rfl).1
    ⟨⟨2, PyVal.str "T2", PyVal.str "A2", PyVal.int 2001,
      PyVal.str "isbn2", 60⟩, by decide, rfl, by decide⟩,
   (update_conflict_and_replace 2025
      ⟨[⟨1, PyVal.str "T1", PyVal.str "A1", PyVal.int 2000,
         PyVal.str "isbn1", 50⟩,
        ⟨2, PyVal.str "T2", PyVal.str "A2", PyVal.int 2001,
         PyVal.str "isbn2", 60⟩], 3, 100⟩ 1
      [("title", PyVal.str "New"), ("author", PyVal.str "N"),
       ("year", PyVal.int 2000), ("isbn", PyVal.str "isbn1")]
      ⟨1, PyVal.str "T1", PyVal.str "A1", PyVal.int 2000,
       PyVal.str "isbn1", 50⟩ rfl rfl).2
    ⟨rfl, by decide⟩⟩

theorem postPending_error_status {cy : Int} {d? : Option Payload} {db : DB}
    {r : Response} (h : postPending cy d? db = .error r) :
    r.1 = 400 ∨ r.1 = 409 ∨ r.1 = 500 := by
  unfold postPending at h
  cases d? with
  | none =>
      simp only [Except.error.injEq] at h
      rw [← h]; simp
  | some data =>
      (repeat' split at h) <;>
        first
          | (simp only [Except.error.injEq] at h; rw [← h]; simp)
          | simp at h

theorem putPending_error_status {cy bid : Int} {d? : Option Payload}
    {db : DB} {r : Response} (h : putPending cy bid d? db = .error r) :
    r.1 = 400 ∨ r.1 = 404 ∨ r.1 = 409 ∨ r.1 = 500 := by
  unfold putPending at h
  cases d? with
  | none =>
      simp only [Except.error.injEq] at h
      rw [← h]; simp
  | some data =>
      (repeat' split at h) <;>
        first
          | (simp only [Except.error.injEq] at h; rw [← h]; simp)
          | simp at h

/-- C6: with a failing `db.session.commit()`, each write handler (`post`,
`put`, `delete`) leaves the persisted store exactly as it was (the
`except` clause rolls the session back), and whenever the same call would
have succeeded it instead answers the generic 500 Internal server error. -/
theorem write_failure_rollback (cy : Int) (db : DB) (d : Payload)
    (bid : Int) :
    (bookListPost cy (some d) false db).2 = db ∧
    (bookPut cy bid (some d) false db).2 = db ∧
    (bookDelete bid false db).2 = db ∧
    ((bookListPost cy (some d) true db).1.1 = 201 →
      (bookListPost cy (some d) false db).1
        = (500, .errMsg "Internal server error")) ∧
    ((bookPut cy bid (some d) true db).1.1 = 200 →
      (bookPut cy bid (some d) false db).1
        = (500, .errMsg "Internal server error")) ∧
    ((bookDelete bid true db).1.1 = 200 →
      (bookDelete bid false db).1
        = (500, .errMsg "Internal server error")) := by
  refine ⟨?_, ?_, ?_, ?_, ?_, ?_⟩
  · unfold bookListPost
    cases hp : postPending cy (some d) db <;> simp
  · unfold bookPut
    cases hp : putPending cy bid (some d) db <;> simp
  · unfold bookDelete
    cases hp : db.getById bid <;> simp
  · unfold bookListPost
    cases hp : postPending cy (some d) db with
    | error r =>
        simp only []
        intro h201
        exfalso
        rcases postPending_error_status hp with h | h | h <;> omega
    | ok book => intro _; rfl
  · unfold bookPut
    cases hp : putPending cy bid (some d) db with
    | error r =>
        simp only []
        intro h200
        exfalso
        rcases putPending_error_status hp with h | h | h | h <;> omega
    | ok book => intro _; rfl
  · unfold bookDelete
    cases hp : db.getById bid with
    | none =>
        simp only []
        intro h200
        exact absurd h200 (by norm_num)
    | some b => intro _; rfl

/-- C6 witness: a store holding one book, and a payload for which create,
update and delete would all succeed: the failing-commit runs leave the
store untouched and answer 500. -/
theorem write_failure_rollback_witness :
    (bookListPost 2025
      (some [("title", PyVal.str "New"), ("author", PyVal.str "N"),
             ("year", PyVal.int 2000), ("isbn", PyVal.str "new1")]) false
      ⟨[⟨1, PyVal.str "T1", PyVal.str "A1", PyVal.int 2000,
         PyVal.str "isbn1", 50⟩], 2, 100⟩).2
      = ⟨[⟨1, PyVal.str "T1", PyVal.str "A1", PyVal.int 2000,
          PyVal.str "isbn1", 50⟩], 2, 100⟩ ∧
    (bookPut 2025 1
      (some [("title", PyVal.str "New"), ("author", PyVal.str "N"),
             ("year", PyVal.int 2000), ("isbn", PyVal.str "new1")]) false
      ⟨[⟨1, PyVal.str "T1", PyVal.str "A1", PyVal.int 2000,
         PyVal.str "isbn1", 50⟩], 2, 100⟩).2
      = ⟨[⟨1, PyVal.str "T1", PyVal.str "A1", PyVal.int 2000,
          PyVal.str "isbn1", 50⟩], 2, 100⟩ ∧
    (bookDelete 1 false
      ⟨[⟨1, PyVal.str "T1", PyVal.str "A1", PyVal.int 2000,
         PyVal.str "isbn1", 50⟩], 2, 100⟩).2
      = ⟨[⟨1, PyVal.str "T1", PyVal.str "A1", PyVal.int 2000,
          PyVal.str "isbn1", 50⟩], 2, 100⟩ ∧
    (bookListPost 2025
      (some [("title", PyVal.str "New"), ("author", PyVal.str "N"),
             ("year", PyVal.int 2000), ("isbn", PyVal.str "new1")]) true
      ⟨[⟨1, PyVal.str "T1", PyVal.str "A1", PyVal.int 2000,
         PyVal.str "isbn1", 50⟩], 2, 100⟩).1.1 = 201 ∧
    (bookListPost 2025
      (some [("title", PyVal.str "New"), ("author", PyVal.str "N"),
             ("year", PyVal.int 2000), ("isbn", PyVal.str "new1")]) false
      ⟨[⟨1, PyVal.str "T1", PyVal.str "A1", PyVal.int 2000,
         PyVal.str "isbn1", 50⟩], 2, 100⟩).1
      = (500, Body.errMsg "Internal server error") ∧
    (bookPut 2025 1
      (some [("title", PyVal.str "New"), ("author", PyVal.str "N"),
             ("year", PyVal.int 2000), ("isbn", PyVal.str "new1")]) false
      ⟨[⟨1, PyVal.str "T1", PyVal.str "A1", PyVal.int 2000,
         PyVal.str "isbn1", 50⟩], 2, 100⟩).1
      = (500, Body.errMsg "Internal server error") ∧
    (bookDelete 1 false
      ⟨[⟨1, PyVal.str "T1", PyVal.str "A1", PyVal.int 2000,
         PyVal.str "isbn1", 50⟩], 2, 100⟩).1
      = (500, Body.errMsg "Internal server error") :=
  ⟨(write_failure_rollback 2025
      ⟨[⟨1, PyVal.str "T1", PyVal.str "A1", PyVal.int 2000,
         PyVal.str "isbn1", 50⟩], 2, 100⟩
      [("title", PyVal.str "New"), ("author", PyVal.str "N"),
       ("year", PyVal.int 2000), ("isbn", PyVal.str "new1")] 1).1,
   (write_failure_rollback 2025
      ⟨[⟨1, PyVal.str "T1", PyVal.str "A1", PyVal.int 2000,
         PyVal.str "isbn1", 50⟩], 2, 100⟩
      [("title", PyVal.str "New"), ("author", PyVal.str "N"),
       ("year", PyVal.int 2000), ("isbn", PyVal.str "new1")] 1).2.1,
   (write_failure_rollback 2025
      ⟨[⟨1, PyVal.str "T1", PyVal.str "A1", PyVal.int 2000,
         PyVal.str "isbn1", 50⟩], 2, 100⟩
      [("title", PyVal.str "New"), ("author", PyVal.str "N"),
       ("year", PyVal.int 2000), ("isbn", PyVal.str "new1")] 1).2.2.1,
   rfl,
   (write_failure_rollback 2025
      ⟨[⟨1, PyVal.str "T1", PyVal.str "A1", PyVal.int 2000,
         PyVal.str "isbn1", 50⟩], 2, 100⟩
      [("title", PyVal.str "New"), ("author", PyVal.str "N"),
       ("year", PyVal.int 2000), ("isbn", PyVal.str "new1")] 1).2.2.2.1 rfl,
   (write_failure_rollback 2025
      ⟨[⟨1, PyVal.str "T1", PyVal.str "A1", PyVal.int 2000,
         PyVal.str "isbn1", 50⟩], 2, 100⟩
      [("title", PyVal.str "New"), ("author", PyVal.str "N"),
       ("year", PyVal.int 2000), ("isbn", PyVal.str "new1")] 1).2.2.2.2.1 rfl,
   (write_failure_rollback 2025
      ⟨[⟨1, PyVal.str "T1", PyVal.str "A1", PyVal.int 2000,
         PyVal.str "isbn1", 50⟩], 2, 100⟩
      [("title", PyVal.str "New"), ("author", PyVal.str "N"),
       ("year", PyVal.int 2000), ("isbn", PyVal.str "new1")] 1).2.2.2.2.2 rfl⟩

theorem Payload.getD_none_of_get_none {d : Payload} {k : String}
    (h : d.get k = Option.none) : d.getD k = .none := by
  unfold Payload.getD
  rw [h]
  rfl

theorem List.isEmpty_false_of_ne_nil {α : Type} {l : List α} (h : l ≠ []) :
    l.isEmpty = false := by
  cases l with
  | nil => exact absurd rfl h
  | cons hd tl => rfl

/-- C7 counterexample: two payloads break the claim as stated.  The empty
JSON object is falsy in Python, so `BookList.post` answers
`400 {error: 'No JSON data provided'}` before the validator ever runs; and
the nonempty payload `{title: 1}` — missing author and isbn — makes the
validator raise `AttributeError` at `(1).strip()`, so create answers the
generic 500, not the claimed `ValidationFailed` list of missing-field
messages in either case. -/
theorem create_empty_payload_cex :
    bookListPost 2025 (some []) true ⟨[], 1, 100⟩
      = ((400, Body.errMsg "No JSON data provided"), ⟨[], 1, 100⟩) ∧
    (bookListPost 2025 (some []) true ⟨[], 1, 100⟩).1.2
      ≠ Body.errList ["Title is required", "Author is required",
                      "Year is required", "ISBN is required"] ∧
    bookListPost 2025 (some [("title", PyVal.int 1)]) true ⟨[], 1, 100⟩
      = ((500, Body.errMsg "Internal server error"), ⟨[], 1, 100⟩) ∧
    (bookListPost 2025 (some [("title", PyVal.int 1)]) true
      ⟨[], 1, 100⟩).1.2
      ≠ Body.errList ["Title is required", "Author is required",
                      "Year is required", "ISBN is required"] := by decide

/-- C7 (amended): for every nonempty payload whose present title and
author values are strings or falsy (so the validator cannot raise) with
`title`, `author` or `isbn` absent, `create` answers 400 with the
validation-error list, which contains the matching required-field message
at its fixed position.  The empty JSON object instead gets
`400 {error: 'No JSON data provided'}`, and a truthy non-string title or
author instead gets the generic 500. -/
theorem create_missing_fields_validation (cy : Int) (db : DB) (d : Payload)
    (hne : d ≠ [])
    (hsafe : strSafe d = true)
    (hmiss : d.get "title" = Option.none ∨ d.get "author" = Option.none ∨
             d.get "isbn" = Option.none) :
    ∃ es, bookListPost cy (some d) true db = ((400, .errList es), db) ∧
      es = reqErrs d "title" "Title is required" ++
           reqErrs d "author" "Author is required" ++
           checkYearField cy d false ++ checkIsbnField d false ∧
      (d.get "title" = Option.none →
        reqErrs d "title" "Title is required" = ["Title is required"]) ∧
      (d.get "author" = Option.none →
        reqErrs d "author" "Author is required" = ["Author is required"]) ∧
      (d.get "isbn" = Option.none →
        checkIsbnField d false = ["ISBN is required"]) := by
  have hval : validate_book_data cy d false =
      .ok (reqErrs d "title" "Title is required" ++
           reqErrs d "author" "Author is required" ++
           checkYearField cy d false ++ checkIsbnField d false) :=
    validate_false_eq hsafe
  have hT : d.get "title" = Option.none →
      reqErrs d "title" "Title is required" = ["Title is required"] := by
    intro hg
    unfold reqErrs
    rw [Payload.getD_none_of_get_none hg]
    rfl
  have hA : d.get "author" = Option.none →
      reqErrs d "author" "Author is required" = ["Author is required"] := by
    intro hg
    unfold reqErrs
    rw [Payload.getD_none_of_get_none hg]
    rfl
  have hI : d.get "isbn" = Option.none →
      checkIsbnField d false = ["ISBN is required"] := by
    intro hg
    unfold checkIsbnField
    rw [Payload.getD_none_of_get_none hg]
    rfl
  have hLne : reqErrs d "title" "Title is required" ++
      reqErrs d "author" "Author is required" ++
      checkYearField cy d false ++ checkIsbnField d false ≠ [] := by
    intro hnil
    rw [List.append_eq_nil, List.append_eq_nil, List.append_eq_nil] at hnil
    obtain ⟨⟨⟨h1, h2⟩, h3⟩, h4⟩ := hnil
    rcases hmiss with hm | hm | hm
    · rw [hT hm] at h1; exact absurd h1 (by simp)
    · rw [hA hm] at h2; exact absurd h2 (by simp)
    · rw [hI hm] at h4; exact absurd h4 (by simp)
  have hEmp : d.isEmpty = false := List.isEmpty_false_of_ne_nil hne
  have hLE : (reqErrs d "title" "Title is required" ++
      reqErrs d "author" "Author is required" ++
      checkYearField cy d false ++ checkIsbnField d false).isEmpty = false :=
    List.isEmpty_false_of_ne_nil hLne
  refine ⟨_, ?_, rfl, hT, hA, hI⟩
  have hpend : postPending cy (some d) db =
      .error (400, .errList (reqErrs d "title" "Title is required" ++
        reqErrs d "author" "Author is required" ++
        checkYearField cy d false ++ checkIsbnField d false)) := by
    simp only [postPending, hEmp, hval, hLE]
    simp [hEmp, hLE]
  unfold bookListPost
  rw [hpend]

/-- C7 witness: the payload `{year: 2000}` is missing title, author and
isbn; create answers 400 with the three required messages around the year
entry, in field order. -/
theorem create_missing_fields_validation_witness :
    ∃ es, bookListPost 2025 (some [("year", PyVal.int 2000)]) true
        ⟨[], 1, 100⟩ = ((400, .errList es), ⟨[], 1, 100⟩) ∧
      es = reqErrs [("year", PyVal.int 2000)] "title" "Title is required" ++
           reqErrs [("year", PyVal.int 2000)] "author" "Author is required" ++
           checkYearField 2025 [("year", PyVal.int 2000)] false ++
           checkIsbnField [("year", PyVal.int 2000)] false ∧
      (Payload.get [("year", PyVal.int 2000)] "title" = Option.none →
        reqErrs [("year", PyVal.int 2000)] "title" "Title is required"
          = ["Title is required"]) ∧
      (Payload.get [("year", PyVal.int 2000)] "author" = Option.none →
        reqErrs [("year", PyVal.int 2000)] "author" "Author is required"
          = ["Author is required"]) ∧
      (Payload.get [("year", PyVal.int 2000)] "isbn" = Option.none →
        checkIsbnField [("year", PyVal.int 2000)] false
          = ["ISBN is required"]) :=
  create_missing_fields_validation 2025 ⟨[], 1, 100⟩
    [("year", PyVal.int 2000)] (by simp) rfl (Or.inl rfl)

theorem putPending_409_body {cy bid : Int} {d? : Option Payload} {db : DB}
    {r : Response} (h : putPending cy bid d? db = .error r)
    (h409 : r.1 = 409) :
    r = (409, .errMsg "Another book with this ISBN already exists") := by
  unfold putPending at h
  cases d? with
  | none =>
      simp only [Except.error.injEq] at h
      rw [← h] at h409
      exact absurd h409 (by norm_num)
  | some data =>
      (repeat' split at h) <;>
        first
          | (simp only [Except.error.injEq] at h; subst h;
             first
               | rfl
               | (exact absurd h409 (by norm_num)))
          | simp at h

/-- C8 counterexample: an update that ends in Conflict renders
`{error: 'Another book with this ISBN already exists'}`, not create's
`{error: 'Book with this ISBN already exists'}` body the claim states. -/
theorem update_conflict_message_cex :
    bookPut 2025 1
      (some [("title", PyVal.str "New"), ("author", PyVal.str "N"),
             ("year", PyVal.int 2000), ("isbn", PyVal.str "isbn2")]) true
      ⟨[⟨1, PyVal.str "T1", PyVal.str "A1", PyVal.int 2000,
         PyVal.str "isbn1", 50⟩,
        ⟨2, PyVal.str "T2", PyVal.str "A2", PyVal.int 2001,
         PyVal.str "isbn2", 60⟩], 3, 100⟩
      = ((409, Body.errMsg "Another book with this ISBN already exists"),
         ⟨[⟨1, PyVal.str "T1", PyVal.str "A1", PyVal.int 2000,
            PyVal.str "isbn1", 50⟩,
           ⟨2, PyVal.str "T2", PyVal.str "A2", PyVal.int 2001,
            PyVal.str "isbn2", 60⟩], 3, 100⟩) ∧
    (bookPut 2025 1
      (some [("title", PyVal.str "New"), ("author", PyVal.str "N"),
             ("year", PyVal.int 2000), ("isbn", PyVal.str "isbn2")]) true
      ⟨[⟨1, PyVal.str "T1", PyVal.str "A1", PyVal.int 2000,
         PyVal.str "isbn1", 50⟩,
        ⟨2, PyVal.str "T2", PyVal.str "A2", PyVal.int 2001,
         PyVal.str "isbn2", 60⟩], 3, 100⟩).1.2
      ≠ Body.errMsg "Book with this ISBN already exists" := by decide

/-- C8 (amended): every update call that ends in Conflict renders status
409 with body `{error: 'Another book with this ISBN already exists'}` —
the 409 path mirrors create's but with its own message text. -/
theorem update_conflict_rendering (cy bid : Int) (d? : Option Payload)
    (ok : Bool) (db : DB)
    (h : (bookPut cy bid d? ok db).1.1 = 409) :
    (bookPut cy bid d? ok db).1
      = (409, Body.errMsg "Another book with this ISBN already exists") := by
  unfold bookPut at h ⊢
  cases hp : putPending cy bid d? db with
  | error r =>
      rw [hp] at h
      exact putPending_409_body hp h
  | ok book =>
      rw [hp] at h
      cases ok with
      | true => exact absurd h (by norm_num)
      | false => exact absurd h (by norm_num)

/-- C8 witness: the conflicting update of book 1 to book 2's isbn renders
the 409 body. -/
theorem update_conflict_rendering_witness :
    (bookPut 2025 1
      (some [("title", PyVal.str "New"), ("author", PyVal.str "N"),
             ("year", PyVal.int 2000), ("isbn", PyVal.str "isbn2")]) true
      ⟨[⟨1, PyVal.str "T1", PyVal.str "A1", PyVal.int 2000,
         PyVal.str "isbn1", 50⟩,
        ⟨2, PyVal.str "T2", PyVal.str "A2", PyVal.int 2001,
         PyVal.str "isbn2", 60⟩], 3, 100⟩).1
      = (409, Body.errMsg "Another book with this ISBN already exists") :=
  update_conflict_rendering 2025 1
    (some [("title", PyVal.str "New"), ("author", PyVal.str "N"),
           ("year", PyVal.int 2000), ("isbn", PyVal.str "isbn2")]) true
    ⟨[⟨1, PyVal.str "T1", PyVal.str "A1", PyVal.int 2000,
       PyVal.str "isbn1", 50⟩,
      ⟨2, PyVal.str "T2", PyVal.str "A2", PyVal.int 2001,
       PyVal.str "isbn2", 60⟩], 3, 100⟩ rfl

/-- C9: a payload whose `title` is a truthy non-string (here the number 7)
makes the validator raise `AttributeError` at `.strip()`; the handlers'
generic `except` turns that into 500 Internal server error for both create
and update, instead of a 400 `ValidationFailed` — the invalid-field branch
is not total over non-string inputs. -/
theorem nonstring_title_internal_error (cy : Int) (db : DB) (bid : Int)
    (book : Book) (hget : db.getById bid = some book) :
    validate_book_data cy
        [("title", PyVal.int 7), ("author", PyVal.str "a"),
         ("year", PyVal.int 2000), ("isbn", PyVal.str "x")] false
      = .error .attributeError ∧
    bookListPost cy
        (some [("title", PyVal.int 7), ("author", PyVal.str "a"),
               ("year", PyVal.int 2000), ("isbn", PyVal.str "x")]) true db
      = ((500, .errMsg "Internal server error"), db) ∧
    bookPut cy bid
        (some [("title", PyVal.int 7), ("author", PyVal.str "a"),
               ("year", PyVal.int 2000), ("isbn", PyVal.str "x")]) true db
      = ((500, .errMsg "Internal server error"), db) := by
  have hv : validate_book_data cy
      [("title", PyVal.int 7), ("author", PyVal.str "a"),
       ("year", PyVal.int 2000), ("isbn", PyVal.str "x")] false
      = .error .attributeError := rfl
  refine ⟨hv, rfl, ?_⟩
  have hpend : putPending cy bid
      (some [("title", PyVal.int 7), ("author", PyVal.str "a"),
             ("year", PyVal.int 2000), ("isbn", PyVal.str "x")]) db
      = .error (500, .errMsg "Internal server error") := by
    simp [putPending, hget, hv]
  unfold bookPut
  rw [hpend]

/-- C9 witness: the store with one book, updating and creating with the
numeric title. -/
theorem nonstring_title_internal_error_witness :
    validate_book_data 2025
        [("title", PyVal.int 7), ("author", PyVal.str "a"),
         ("year", PyVal.int 2000), ("isbn", PyVal.str "x")] false
      = .error .attributeError ∧
    bookListPost 2025
        (some [("title", PyVal.int 7), ("author", PyVal.str "a"),
               ("year", PyVal.int 2000), ("isbn", PyVal.str "x")]) true
        ⟨[⟨1, PyVal.str "T1", PyVal.str "A1", PyVal.int 2000,
           PyVal.str "isbn1", 50⟩], 2, 100⟩
      = ((500, .errMsg "Internal server error"),
         ⟨[⟨1, PyVal.str "T1", PyVal.str "A1", PyVal.int 2000,
            PyVal.str "isbn1", 50⟩], 2, 100⟩) ∧
    bookPut 2025 1
        (some [("title", PyVal.int 7), ("author", PyVal.str "a"),
               ("year", PyVal.int 2000), ("isbn", PyVal.str "x")]) true
        ⟨[⟨1, PyVal.str "T1", PyVal.str "A1", PyVal.int 2000,
           PyVal.str "isbn1", 50⟩], 2, 100⟩
      = ((500, .errMsg "Internal server error"),
         ⟨[⟨1, PyVal.str "T1", PyVal.str "A1", PyVal.int 2000,
            PyVal.str "isbn1", 50⟩], 2, 100⟩) :=
  nonstring_title_internal_error 2025
    ⟨[⟨1, PyVal.str "T1", PyVal.str "A1", PyVal.int 2000,
       PyVal.str "isbn1", 50⟩], 2, 100⟩ 1
    ⟨1, PyVal.str "T1", PyVal.str "A1", PyVal.int 2000,
     PyVal.str "isbn1", 50⟩ rfl

/-- C10: any year value Python `int()` maps into `[0, currentYear]` passes
the year rule — including the numeric string "1965", the float 1965.7
(truncated) and booleans — and create accepts such payloads. -/
theorem year_intlike_accepted (cy : Int) (d : Payload) (v : PyVal) (n : Int)
    (hv : d.getD "year" = v) (hvne : v ≠ PyVal.none)
    (hcoe : pyIntCoe v = some n) (h0 : 0 ≤ n) (hn : n ≤ cy)
    (hcy : (1965:Int) ≤ cy) :
    checkYearField cy d false = [] ∧
    validate_book_data cy (yearProbe (.str "1965")) false = .ok [] ∧
    validate_book_data cy (yearProbe (.float 19657 10)) false = .ok [] ∧
    validate_book_data cy (yearProbe (.bool true)) false = .ok [] ∧
    (bookListPost cy (some (yearProbe (.str "1965"))) true
      ⟨[], 1, 100⟩).1.1 = 201 := by
  have hstr : validate_book_data cy (yearProbe (.str "1965")) false
      = .ok [] := by
    rw [validate_yearProbe]
    have hx : checkYearFieldV cy (.str "1965") false
        = if (1965:Int) < 0 ∨ (1965:Int) > cy then
            ["Year must be between 0 and " ++ toString cy] else [] := rfl
    rw [hx, if_neg (by omega)]
  refine ⟨?_, hstr, ?_, ?_, ?_⟩
  · unfold checkYearField
    rw [hv]
    unfold checkYearFieldV
    rw [if_pos hvne, hcoe]
    show (if n < 0 ∨ n > cy then
      ["Year must be between 0 and " ++ toString cy] else []) = []
    rw [if_neg (by omega)]
  · rw [validate_yearProbe]
    have hx : checkYearFieldV cy (.float 19657 10) false
        = if (1965:Int) < 0 ∨ (1965:Int) > cy then
            ["Year must be between 0 and " ++ toString cy] else [] := rfl
    rw [hx, if_neg (by omega)]
  · rw [validate_yearProbe]
    have hx : checkYearFieldV cy (.bool true) false
        = if (1:Int) < 0 ∨ (1:Int) > cy then
            ["Year must be between 0 and " ++ toString cy] else [] := rfl
    rw [hx, if_neg (by omega)]
  · have hgt : (yearProbe (.str "1965")).get "title" = some (.str "t") := rfl
    have hga : (yearProbe (.str "1965")).get "author" = some (.str "a") := rfl
    have hgy : (yearProbe (.str "1965")).get "year"
        = some (.str "1965") := rfl
    have hgi : (yearProbe (.str "1965")).get "isbn" = some (.str "i") := rfl
    have hne : (yearProbe (.str "1965")).isEmpty = false := rfl
    have hfind : DB.findByIsbn ⟨[], 1, 100⟩ (.str "i") = Option.none := rfl
    have hpend : postPending cy (some (yearProbe (.str "1965")))
        ⟨[], 1, 100⟩ =
        .ok ⟨1, .str "t", .str "a", .str "1965", .str "i", 100⟩ := by
      simp [postPending, hne, hstr, hgi, hgt, hga, hgy, hfind]
    unfold bookListPost
    rw [hpend]
    rfl

/-- C10 witness: at current year 2025 the numeric-string year "1965"
passes the year rule and create accepts it. -/
theorem year_intlike_accepted_witness :
    checkYearField 2025 (yearProbe (PyVal.str "1965")) false = [] ∧
    validate_book_data 2025 (yearProbe (.str "1965")) false = .ok [] ∧
    validate_book_data 2025 (yearProbe (.float 19657 10)) false = .ok [] ∧
    validate_book_data 2025 (yearProbe (.bool true)) false = .ok [] ∧
    (bookListPost 2025 (some (yearProbe (.str "1965"))) true
      ⟨[], 1, 100⟩).1.1 = 201 :=
  year_intlike_accepted 2025 (yearProbe (.str "1965")) (.str "1965") 1965
    rfl (by decide) rfl (by norm_num) (by norm_num) (by norm_num)
